import Mathlib

/-!
Verification development for the serverless AI inference dispatcher
(AWS Lambda + Bedrock backend with a React frontend).

The repository ships the frontend (apps/frontend/src/App.tsx), READMEs and a
deployment script; the Lambda dispatcher itself (src/app.py) is not part of
the shipped sources, so the dispatcher components (ModelCatalog,
RequestRouter, ModelGateway, StreamEncoder, ResponseFormatter) are modelled
from the specification, faithful to its words.  The frontend submit handler
is embedded directly from App.tsx.
-/

namespace AIDispatch

/-- Modelled from the spec: the requested generation modality,
text or image (GLOSSARY, section 3). -/
inductive Task where
  | text
  | image
deriving DecidableEq

/-- Modelled from the spec: catalog entry describing a model
(id, provider, modality, streaming capability), section 3. -/
structure ModelDescriptor where
  id : String
  provider : String
  modality : Task
  supports_streaming : Bool
deriving DecidableEq

/-- Modelled from the spec: the static ModelCatalog (section 2), with model
identifiers taken from the repository READMEs; text models are
streaming-capable, image models are single-shot (section 4.2: for image
tasks no streaming variant exists). -/
def ModelCatalog : List ModelDescriptor :=
  [ ⟨"amazon.titan-text-express-v1", "amazon", Task.text, true⟩,
    ⟨"amazon.titan-text-lite-v1", "amazon", Task.text, true⟩,
    ⟨"mistral.mistral-7b-instruct-v0:2", "mistral", Task.text, true⟩,
    ⟨"meta.llama3-8b-instruct-v1:0", "meta", Task.text, true⟩,
    ⟨"us.amazon.nova-lite-v1:0", "amazon", Task.text, true⟩,
    ⟨"amazon.titan-image-generator-v1", "amazon", Task.image, false⟩,
    ⟨"stability.stable-diffusion-xl-v1", "stability", Task.image, false⟩ ]

/-- Modelled from the spec: lookup of a model identifier in ModelCatalog. -/
def findModel (mid : String) : Option ModelDescriptor :=
  ModelCatalog.find? (fun d => d.id = mid)

/-- Modelled from the spec: the fixed per-task default descriptor chosen when
model_id is absent (section 4.1); the README examples use the Titan text
model, and the Titan image generator is the designated image default. -/
def defaultDescriptor : Task → ModelDescriptor
  | Task.text => ⟨"amazon.titan-text-express-v1", "amazon", Task.text, true⟩
  | Task.image => ⟨"amazon.titan-image-generator-v1", "amazon", Task.image, false⟩

/-- Modelled from the spec: the raw JSON body of an incoming call
(section 6); absent fields are None. -/
structure RawBody where
  task : Option String
  prompt : Option String
  model_id : Option String
  stream : Option Bool
deriving DecidableEq

/-- Modelled from the spec: parsing the task field; only "text" and
"image" are recognized. -/
def parseTask : Option String → Option Task
  | some "text" => some Task.text
  | some "image" => some Task.image
  | _ => none

/-- Modelled from the spec: the error taxonomy of section 7. -/
inductive ErrKind where
  | InvalidRequest
  | ModelNotFound
  | ProviderThrottled
  | ProviderUnavailable
  | StreamInterrupted
  | FormattingError
deriving DecidableEq

/-- Modelled from the spec: the HTTP status attached to each error kind
(section 7).  StreamInterrupted happens after a 200 response has begun, so
no status-code change is possible. -/
def statusOf : ErrKind → Nat
  | ErrKind.InvalidRequest => 400
  | ErrKind.ModelNotFound => 400
  | ErrKind.ProviderThrottled => 429
  | ErrKind.ProviderUnavailable => 502
  | ErrKind.StreamInterrupted => 200
  | ErrKind.FormattingError => 500

/-- Modelled from the spec: a validated, normalized inference request
(section 3).  The stream field is the effective streaming flag after the
silent downgrade of section 4.1; downgraded records the downgrade as an
observability attribute. -/
structure InferenceRequest where
  task : Task
  prompt : String
  descriptor : ModelDescriptor
  stream : Bool
  downgraded : Bool
deriving DecidableEq

/-- Modelled from the spec: building the validated request from a parsed
task, prompt, descriptor and the requested stream flag; stream=true is
honored only when the descriptor supports streaming, otherwise silently
downgraded and recorded (sections 3 and 4.1). -/
def mkRequest (t : Task) (p : String) (d : ModelDescriptor) (streamReq : Bool) : InferenceRequest :=
  ⟨t, p, d, streamReq && d.supports_streaming, streamReq && !d.supports_streaming⟩

/-- Modelled from the spec: RequestRouter.route (section 4.1).  Fails with
InvalidRequest when task is missing or unrecognized, prompt is empty or
absent, model_id is supplied but unknown to ModelCatalog, or (section 3
invariant, section 7 table) the resolved descriptor has a modality that
differs from task.  When model_id is absent the fixed per-task default
descriptor is selected. -/
def route (b : RawBody) : Except ErrKind InferenceRequest :=
  match parseTask b.task with
  | none => Except.error ErrKind.InvalidRequest
  | some t =>
    match b.prompt with
    | none => Except.error ErrKind.InvalidRequest
    | some p =>
      if p = "" then Except.error ErrKind.InvalidRequest
      else
        match b.model_id with
        | some mid =>
          match findModel mid with
          | none => Except.error ErrKind.InvalidRequest
          | some d =>
            if d.modality = t then Except.ok (mkRequest t p d (b.stream.getD false))
            else Except.error ErrKind.InvalidRequest
        | none => Except.ok (mkRequest t p (defaultDescriptor t) (b.stream.getD false))

/-- Concatenation of a list of strings, left to right. -/
def concatStrings : List String → String
  | [] => ""
  | s :: rest => s ++ concatStrings rest

/-- Modelled from the spec: one observed behavior of the provider client for
a text call (section 6): either a successful delta sequence, or a failure
signal raised after emitting some deltas (throttling when the flag is true,
a generic upstream failure otherwise; a throttling signal at the very start
of a call is errorAt [] true). -/
inductive ProviderOutcome where
  | ok (deltas : List String)
  | errorAt (deltas : List String) (throttling : Bool)
deriving DecidableEq

/-- Modelled from the spec: one observed behavior of the provider client for
a single-shot image call (section 6). -/
inductive ImageOutcome where
  | ok (bytes : List Nat)
  | throttle
  | unavailable
deriving DecidableEq

/-- Modelled from the spec: the delta sequence a single provider text call
yields, together with an error when the call did not complete normally. -/
structure StreamOutput where
  deltas : List String
  error : Option ErrKind
deriving DecidableEq

/-- Modelled from the spec: the result of ModelGateway.invoke for a text
call; retries is the retry count recorded for observability (section 4.2,
section 8 example). -/
structure Invocation where
  output : StreamOutput
  retries : Nat
deriving DecidableEq

/-- Modelled from the spec: the outcome of a single provider text call. -/
def callOnce : ProviderOutcome → StreamOutput
  | ProviderOutcome.ok ds => ⟨ds, none⟩
  | ProviderOutcome.errorAt ds true => ⟨ds, some ErrKind.ProviderThrottled⟩
  | ProviderOutcome.errorAt ds false => ⟨ds, some ErrKind.ProviderUnavailable⟩

/-- Modelled from the spec: the next behavior of the provider; an exhausted
oracle stands for an unreachable upstream. -/
def headOutcome : List ProviderOutcome → ProviderOutcome
  | [] => ProviderOutcome.errorAt [] false
  | o :: _ => o

/-- Modelled from the spec: ModelGateway.invoke for text calls
(section 4.2).  On a transient throttling signal it retries exactly once
after a fixed backoff; any other failure, or a second throttling signal, is
surfaced immediately.  The retry applies only to non-streaming calls or to
the start of a streaming call before any delta has been emitted; once
streaming has begun a mid-stream failure is never retried. -/
def invoke (streaming : Bool) (outs : List ProviderOutcome) : Invocation :=
  let first := callOnce (headOutcome outs)
  if first.error = some ErrKind.ProviderThrottled ∧ (streaming = false ∨ first.deltas = []) then
    ⟨callOnce (headOutcome outs.tail), 1⟩
  else
    ⟨first, 0⟩

/-- Modelled from the spec: the outcome of a single provider image call. -/
def callOnceImage : ImageOutcome → Except ErrKind (List Nat)
  | ImageOutcome.ok bs => Except.ok bs
  | ImageOutcome.throttle => Except.error ErrKind.ProviderThrottled
  | ImageOutcome.unavailable => Except.error ErrKind.ProviderUnavailable

/-- Modelled from the spec: the next behavior of the image provider. -/
def headImageOutcome : List ImageOutcome → ImageOutcome
  | [] => ImageOutcome.unavailable
  | o :: _ => o

/-- Modelled from the spec: ModelGateway.invoke for image tasks — always a
single synchronous call (section 4.2), with the same retry-once-on-throttle
policy; the second component is the recorded retry count. -/
def invokeImage (outs : List ImageOutcome) : Except ErrKind (List Nat) × Nat :=
  match callOnceImage (headImageOutcome outs) with
  | Except.error ErrKind.ProviderThrottled => (callOnceImage (headImageOutcome outs.tail), 1)
  | r => (r, 0)

/-- HTML-escaping of a single character: every character that could be
interpreted as markup is replaced by its character entity. -/
def escapeChar (c : Char) : List Char :=
  if c = '&' then "&amp;".data
  else if c = '<' then "&lt;".data
  else if c = '>' then "&gt;".data
  else if c = '"' then "&quot;".data
  else if c = Char.ofNat 39 then "&#39;".data
  else [c]

/-- Modelled from the spec: ResponseFormatter escaping of model text
(section 4.4) — every markup-capable character is escaped before the text
is embedded in the document shell. -/
def escapeHtml (s : String) : String :=
  ⟨(s.data.map escapeChar).flatten⟩

/-- Inverse of escapeHtml: decodes the five character entities produced by
escapeChar and passes every other character through. -/
def unescapeHtml : List Char → List Char
  | '&' :: 'a' :: 'm' :: 'p' :: ';' :: r => '&' :: unescapeHtml r
  | '&' :: 'l' :: 't' :: ';' :: r => '<' :: unescapeHtml r
  | '&' :: 'g' :: 't' :: ';' :: r => '>' :: unescapeHtml r
  | '&' :: 'q' :: 'u' :: 'o' :: 't' :: ';' :: r => '"' :: unescapeHtml r
  | '&' :: '#' :: '3' :: '9' :: ';' :: r => Char.ofNat 39 :: unescapeHtml r
  | c :: r => c :: unescapeHtml r
  | [] => []

/-- The base64 alphabet. -/
def b64Alphabet : String :=
  "ABCDEFGHIJKLMNOPQRSTUVWXYZabcdefghijklmnopqrstuvwxyz0123456789+/"

/-- The character for a 6-bit value. -/
def valToChar (n : Nat) : Char :=
  b64Alphabet.data.getD n 'A'

/-- Base64 encoding of a byte list, without padding: three bytes become
four sextet characters; a trailing byte becomes two characters, two
trailing bytes become three. -/
def encodeCore : List Nat → List Char
  | [] => []
  | [b0] => [valToChar (b0 / 4), valToChar (b0 % 4 * 16)]
  | [b0, b1] => [valToChar (b0 / 4), valToChar (b0 % 4 * 16 + b1 / 16), valToChar (b1 % 16 * 4)]
  | b0 :: b1 :: b2 :: rest =>
    valToChar (b0 / 4) :: valToChar (b0 % 4 * 16 + b1 / 16) ::
      valToChar (b1 % 16 * 4 + b2 / 64) :: valToChar (b2 % 64) :: encodeCore rest

/-- Modelled from the spec: base64 encoding of the image bytes for the
embedded data URI (section 4.4), padded with = to a multiple of four
characters. -/
def base64Encode (bs : List Nat) : String :=
  ⟨encodeCore bs ++ List.replicate ((3 - bs.length % 3) % 3) '='⟩

/-- The numeric value of a base64 character. -/
def charToVal (c : Char) : Nat :=
  (b64Alphabet.data.indexOf c)

/-- Reassembling bytes from a sextet sequence: four sextets give three
bytes, three trailing sextets give two bytes, two give one. -/
def decodeSextets : List Nat → List Nat
  | s0 :: s1 :: s2 :: s3 :: rest =>
    (s0 * 4 + s1 / 16) :: (s1 % 16 * 16 + s2 / 4) :: (s2 % 4 * 64 + s3) :: decodeSextets rest
  | [s0, s1, s2] => [s0 * 4 + s1 / 16, s1 % 16 * 16 + s2 / 4]
  | [s0, s1] => [s0 * 4 + s1 / 16]
  | _ => []

/-- Base64 decoding: padding is dropped, characters are mapped back to
sextets and reassembled into bytes. -/
def base64Decode (s : String) : List Nat :=
  decodeSextets ((s.data.filter (fun c => c ≠ '=')).map charToVal)

/-- Modelled from the spec: the model output consumed by ResponseFormatter
(ModelResponse content, section 3): text or image bytes. -/
inductive Content where
  | text (s : String)
  | image (bytes : List Nat)
deriving DecidableEq

/-- Opening of the minimal document shell for the text path. -/
def textShellPre : String := "<html><body><p>"

/-- Closing of the minimal document shell for the text path. -/
def textShellPost : String := "</p></body></html>"

/-- Opening of the self-contained image document, up to the data URI. -/
def imgShellPre : String := "<html><body><img src=\"data:image/png;base64,"

/-- Closing of the self-contained image document. -/
def imgShellPost : String := "\"/></body></html>"

/-- Modelled from the spec: ResponseFormatter.format (section 4.4).  The
text path escapes the model text and embeds it in the minimal shell; the
image path embeds the bytes as a base64 data URI inside an img element, and
fails with FormattingError when the byte payload is empty. -/
def format : Content → Except ErrKind String
  | Content.text s => Except.ok (textShellPre ++ escapeHtml s ++ textShellPost)
  | Content.image bytes =>
    if bytes = [] then Except.error ErrKind.FormattingError
    else Except.ok (imgShellPre ++ base64Encode bytes ++ imgShellPost)

/-- Modelled from the spec: one unit of the incrementally transmitted
response (section 3). -/
structure StreamChunk where
  sequence_no : Nat
  payload : String
  is_final : Bool
deriving DecidableEq

/-- Modelled from the spec: the inline error marker placed in the terminal
chunk of an interrupted stream (section 4.3). -/
def errorMarker : ErrKind → String
  | ErrKind.InvalidRequest => "[ERROR: InvalidRequest]"
  | ErrKind.ModelNotFound => "[ERROR: ModelNotFound]"
  | ErrKind.ProviderThrottled => "[ERROR: ProviderThrottled]"
  | ErrKind.ProviderUnavailable => "[ERROR: ProviderUnavailable]"
  | ErrKind.StreamInterrupted => "[ERROR: StreamInterrupted]"
  | ErrKind.FormattingError => "[ERROR: FormattingError]"

/-- The closing payload that completes the streamed document. -/
def closingPayload : String := "</p></body></html>"

/-- Modelled from the spec: the payload of the terminal chunk — on normal
completion it closes the document; on failure it signals the error inline
and then closes the document (section 4.3). -/
def finalPayload : Option ErrKind → String
  | none => closingPayload
  | some e => errorMarker e ++ closingPayload

/-- Modelled from the spec: StreamEncoder (section 4.3).  Each provider
delta becomes one chunk (escaped HTML text fragment), in arrival order,
with sequence numbers starting at 0; exactly one terminal chunk with
is_final = true is appended, whether the stream ended normally or with an
error. -/
def encodeStream (out : StreamOutput) : List StreamChunk :=
  (out.deltas.map escapeHtml).enum.map (fun p => ⟨p.1, p.2, false⟩)
    ++ [⟨out.deltas.length, finalPayload out.error, true⟩]

/-- Concatenation of the payloads of the non-final chunks. -/
def concatNonFinal (cs : List StreamChunk) : String :=
  concatStrings ((cs.filter (fun c => !c.is_final)).map StreamChunk.payload)

/-- Modelled from the spec: the response delivered to the caller
(section 6): a complete HTML document, a chunked stream, or an error body
with its status and kind. -/
inductive HttpResponse where
  | ok (body : String)
  | chunks (cs : List StreamChunk)
  | error (status : Nat) (kind : ErrKind)
deriving DecidableEq

deriving instance DecidableEq for Except

/-- Modelled from the spec: the full dispatcher (section 2 data flow):
route, then ModelGateway.invoke, then StreamEncoder or ResponseFormatter.
The second component counts provider invocations actually made (0 when the
request is rejected before any provider call). -/
def handle (b : RawBody) (textOuts : List ProviderOutcome) (imgOuts : List ImageOutcome) :
    HttpResponse × Nat :=
  match route b with
  | Except.error k => (HttpResponse.error (statusOf k) k, 0)
  | Except.ok req =>
    match req.task with
    | Task.image =>
      let (r, retries) := invokeImage imgOuts
      match r with
      | Except.error e => (HttpResponse.error (statusOf e) e, 1 + retries)
      | Except.ok bytes =>
        match format (Content.image bytes) with
        | Except.error e => (HttpResponse.error (statusOf e) e, 1 + retries)
        | Except.ok doc => (HttpResponse.ok doc, 1 + retries)
    | Task.text =>
      if req.stream then
        let inv := invoke true textOuts
        (HttpResponse.chunks (encodeStream inv.output), 1 + inv.retries)
      else
        let inv := invoke false textOuts
        match inv.output.error with
        | some e => (HttpResponse.error (statusOf e) e, 1 + inv.retries)
        | none =>
          match format (Content.text (concatStrings inv.output.deltas)) with
          | Except.error e => (HttpResponse.error (statusOf e) e, 1 + inv.retries)
          | Except.ok doc => (HttpResponse.ok doc, 1 + inv.retries)

/-- Number of img elements embedded in a character sequence: occurrences
of the four characters that open an img tag. -/
def countImgTags : List Char → Nat
  | [] => 0
  | c :: rest => (if (c :: rest).take 4 = ['<', 'i', 'm', 'g'] then 1 else 0) + countImgTags rest

/-- C2: for every streamed request, the emitted StreamChunk sequence has
sequence_no starting at 0 and strictly increasing with no gaps, and
contains exactly one chunk with is_final = true, which is always the last
chunk emitted, whether the stream ended normally or with an error. -/
theorem stream_chunk_invariants (out : StreamOutput) :
    (encodeStream out).map StreamChunk.sequence_no = List.range (encodeStream out).length
    ∧ (encodeStream out).countP (fun c => c.is_final) = 1
    ∧ (encodeStream out).getLast? = some ⟨out.deltas.length, finalPayload out.error, true⟩ := by
  unfold encodeStream
  refine ⟨?_, ?_, ?_⟩
  · rw [List.map_append, List.map_map]
    have h1 : (StreamChunk.sequence_no ∘ fun p : Nat × String => (⟨p.1, p.2, false⟩ : StreamChunk))
        = Prod.fst := rfl
    rw [h1, List.enum_map_fst]
    simp [List.range_succ]
  · simp [List.countP_append, List.countP_map, Function.comp]
  · simp [List.getLast?_concat]

/-- C7: on a mid-stream provider failure (after at least one delta),
StreamEncoder still emits a terminal chunk with is_final = true whose
payload carries the inline error marker, so the failure is detectable from
the chunk stream itself and the stream is never terminated silently. -/
theorem stream_error_terminal_chunk (ds : List String) (e : ErrKind) (_h : ds ≠ []) :
    (encodeStream ⟨ds, some e⟩).getLast?
        = some ⟨ds.length, errorMarker e ++ closingPayload, true⟩
    ∧ errorMarker e ≠ ""
    ∧ finalPayload (some e) ≠ finalPayload none := by
  refine ⟨?_, ?_, ?_⟩
  · simp [encodeStream, List.getLast?_concat, finalPayload]
  · cases e <;> decide
  · cases e <;> decide

/-- Witness for C7 at a concrete interrupted stream. -/
theorem stream_error_terminal_chunk_witness :
    (encodeStream ⟨["hi"], some ErrKind.ProviderUnavailable⟩).getLast?
        = some ⟨1, errorMarker ErrKind.ProviderUnavailable ++ closingPayload, true⟩
    ∧ errorMarker ErrKind.ProviderUnavailable ≠ ""
    ∧ finalPayload (some ErrKind.ProviderUnavailable) ≠ finalPayload none := by
  have h := stream_error_terminal_chunk ["hi"] ErrKind.ProviderUnavailable (by decide)
  exact h

end AIDispatch

namespace AIDispatch

/-- C3: a first throttling signal causes exactly one retry, and only when
the call is non-streaming or no delta has yet been emitted; whatever the
second call does is surfaced as is with recorded retry count 1 (so a second
throttling signal or any other failure is never retried further); a
non-throttling failure is surfaced immediately with no retry; once a
streaming call has emitted a delta, a throttling failure is never retried;
two consecutive throttles on a non-streaming call yield ProviderThrottled,
whose HTTP status is 429, with recorded retry count 1. -/
theorem gateway_retry_policy :
    (∀ (s : Bool) (o : ProviderOutcome) (rest : List ProviderOutcome),
        invoke s (ProviderOutcome.errorAt [] true :: o :: rest) = ⟨callOnce o, 1⟩)
    ∧ (∀ (ds : List String) (o : ProviderOutcome) (rest : List ProviderOutcome),
        invoke false (ProviderOutcome.errorAt ds true :: o :: rest) = ⟨callOnce o, 1⟩)
    ∧ (∀ (s : Bool) (ds : List String) (rest : List ProviderOutcome),
        invoke s (ProviderOutcome.errorAt ds false :: rest)
          = ⟨⟨ds, some ErrKind.ProviderUnavailable⟩, 0⟩)
    ∧ (∀ (ds : List String) (rest : List ProviderOutcome), ds ≠ [] →
        invoke true (ProviderOutcome.errorAt ds true :: rest)
          = ⟨⟨ds, some ErrKind.ProviderThrottled⟩, 0⟩)
    ∧ (∀ rest : List ProviderOutcome,
        invoke false (ProviderOutcome.errorAt [] true :: ProviderOutcome.errorAt [] true :: rest)
          = ⟨⟨[], some ErrKind.ProviderThrottled⟩, 1⟩)
    ∧ (∀ (s : Bool) (ds : List String) (rest : List ProviderOutcome),
        invoke s (ProviderOutcome.ok ds :: rest) = ⟨⟨ds, none⟩, 0⟩)
    ∧ statusOf ErrKind.ProviderThrottled = 429 := by
  refine ⟨?_, ?_, ?_, ?_, ?_, ?_, rfl⟩
  · intro s o rest
    simp [invoke, callOnce, headOutcome]
  · intro ds o rest
    simp [invoke, callOnce, headOutcome]
  · intro s ds rest
    simp [invoke, callOnce, headOutcome]
  · intro ds rest h
    simp [invoke, callOnce, headOutcome, h]
  · intro rest
    simp [invoke, callOnce, headOutcome]
  · intro s ds rest
    simp [invoke, callOnce, headOutcome]

/-- Witness for C3: a mid-stream throttle on a streaming call is not
retried. -/
theorem gateway_retry_policy_witness :
    invoke true (ProviderOutcome.errorAt ["d"] true :: [])
      = ⟨⟨["d"], some ErrKind.ProviderThrottled⟩, 0⟩ :=
  gateway_retry_policy.2.2.2.1 ["d"] [] (by decide)

/-- C4: a request whose model_id resolves to a descriptor whose modality
differs from the task is rejected as InvalidRequest with status 400 before
any provider call: the dispatcher makes zero provider invocations. -/
theorem modality_mismatch_no_provider_call (b : RawBody) (t : Task) (mid : String)
    (d : ModelDescriptor) (ht : parseTask b.task = some t) (hm : b.model_id = some mid)
    (hf : findModel mid = some d) (hmod : d.modality ≠ t) :
    route b = Except.error ErrKind.InvalidRequest
    ∧ ∀ (touts : List ProviderOutcome) (iouts : List ImageOutcome),
        handle b touts iouts = (HttpResponse.error 400 ErrKind.InvalidRequest, 0) := by
  have hr : route b = Except.error ErrKind.InvalidRequest := by
    cases hp : b.prompt with
    | none => simp [route, ht, hp]
    | some p =>
      by_cases hpe : p = ""
      · simp [route, ht, hp, hpe]
      · simp [route, ht, hp, hpe, hm, hf, hmod]
  refine ⟨hr, ?_⟩
  intro touts iouts
  simp [handle, hr, statusOf]

/-- Witness for C4: a text request naming the Titan image model is
rejected with no provider call. -/
theorem modality_mismatch_no_provider_call_witness :
    route ⟨some "text", some "hi", some "amazon.titan-image-generator-v1", none⟩
        = Except.error ErrKind.InvalidRequest
    ∧ handle ⟨some "text", some "hi", some "amazon.titan-image-generator-v1", none⟩ [] []
        = (HttpResponse.error 400 ErrKind.InvalidRequest, 0) := by
  have h := modality_mismatch_no_provider_call
    ⟨some "text", some "hi", some "amazon.titan-image-generator-v1", none⟩
    Task.text "amazon.titan-image-generator-v1"
    ⟨"amazon.titan-image-generator-v1", "amazon", Task.image, false⟩
    (by decide) rfl (by decide) (by decide)
  exact ⟨h.1, h.2 [] []⟩

/-- Inversion of a successful route: the task parsed, the prompt is
present and non-empty, and the request was built by mkRequest from either
the looked-up descriptor (with matching modality) or the per-task
default. -/
theorem route_ok_cases (b : RawBody) (req : InferenceRequest) (h : route b = Except.ok req) :
    ∃ t p, parseTask b.task = some t ∧ b.prompt = some p ∧ p ≠ ""
      ∧ ((∃ mid d, b.model_id = some mid ∧ findModel mid = some d ∧ d.modality = t
            ∧ req = mkRequest t p d (b.stream.getD false))
         ∨ (b.model_id = none ∧ req = mkRequest t p (defaultDescriptor t) (b.stream.getD false))) := by
  rcases hT : parseTask b.task with _ | t
  · simp [route, hT] at h
  rcases hp : b.prompt with _ | p
  · simp [route, hT, hp] at h
  by_cases hpe : p = ""
  · simp [route, hT, hp, hpe] at h
  rcases hm : b.model_id with _ | mid
  · simp [route, hT, hp, hpe, hm] at h
    exact ⟨t, p, rfl, rfl, hpe, Or.inr ⟨rfl, h.symm⟩⟩
  rcases hf : findModel mid with _ | d
  · simp [route, hT, hp, hpe, hm, hf] at h
  by_cases hmod : d.modality = t
  · simp [route, hT, hp, hpe, hm, hf, hmod] at h
    exact ⟨t, p, rfl, rfl, hpe, Or.inl ⟨mid, d, rfl, hf, hmod, h.symm⟩⟩
  · simp [route, hT, hp, hpe, hm, hf, hmod] at h

/-- C5: when stream=true is requested but the resolved descriptor does not
support streaming (every image model in the catalog is such a descriptor),
the effective streaming flag is false, the downgrade is recorded as the
observability attribute, and an image request still succeeds as a
non-streaming HTML response. -/
theorem stream_downgrade (b : RawBody) (req : InferenceRequest)
    (h : route b = Except.ok req) (hs : b.stream = some true)
    (hns : req.descriptor.supports_streaming = false) :
    req.stream = false ∧ req.downgraded = true
    ∧ (∀ d ∈ ModelCatalog, d.modality = Task.image → d.supports_streaming = false)
    ∧ (req.task = Task.image → ∀ (bs : List Nat), bs ≠ [] →
        ∀ (irest : List ImageOutcome) (touts : List ProviderOutcome),
          handle b touts (ImageOutcome.ok bs :: irest)
            = (HttpResponse.ok (imgShellPre ++ base64Encode bs ++ imgShellPost), 1)) := by
  obtain ⟨t, p, hT, hp, hpe, hcase⟩ := route_ok_cases b req h
  have hflags : req.stream = false ∧ req.downgraded = true := by
    rcases hcase with ⟨mid, d, hm, hf, hmod, hreq⟩ | ⟨hm, hreq⟩ <;>
      subst hreq <;> simp_all [mkRequest, hs]
  refine ⟨hflags.1, hflags.2, by decide, ?_⟩
  intro himg bs hbs irest touts
  simp [handle, h, himg, invokeImage, callOnceImage, headImageOutcome, format, hbs]

/-- Witness for C5: an image request with stream=true is downgraded and
still succeeds as a complete non-streaming HTML document. -/
theorem stream_downgrade_witness :
    (mkRequest Task.image "hi" (defaultDescriptor Task.image) true).stream = false
    ∧ (mkRequest Task.image "hi" (defaultDescriptor Task.image) true).downgraded = true
    ∧ handle ⟨some "image", some "hi", none, some true⟩ [] [ImageOutcome.ok [1, 2, 3]]
        = (HttpResponse.ok (imgShellPre ++ base64Encode [1, 2, 3] ++ imgShellPost), 1) := by
  have h := stream_downgrade ⟨some "image", some "hi", none, some true⟩
    (mkRequest Task.image "hi" (defaultDescriptor Task.image) true)
    (by decide) rfl (by decide)
  exact ⟨h.1, h.2.1, h.2.2.2 (by decide) [1, 2, 3] (by decide) [] []⟩

/-- C6 (amended): route fails with InvalidRequest exactly when task is
missing or unrecognized, prompt is empty or absent, model_id is supplied
but unknown to ModelCatalog, or model_id resolves to a descriptor whose
modality differs from the task; in particular a body missing task is an
InvalidRequest (status 400). -/
theorem route_invalid_iff (b : RawBody) :
    route b = Except.error ErrKind.InvalidRequest ↔
      (parseTask b.task = none ∨ b.prompt = none ∨ b.prompt = some ""
        ∨ (∃ mid, b.model_id = some mid ∧ findModel mid = none)
        ∨ (∃ mid d t, b.model_id = some mid ∧ findModel mid = some d
            ∧ parseTask b.task = some t ∧ d.modality ≠ t)) := by
  rcases hT : parseTask b.task with _ | t
  · simp [route, hT]
  rcases hp : b.prompt with _ | p
  · simp [route, hT, hp]
  by_cases hpe : p = ""
  · simp [route, hT, hp, hpe]
  rcases hm : b.model_id with _ | mid
  · simp [route, hT, hp, hpe, hm]
  rcases hf : findModel mid with _ | d
  · simp [route, hT, hp, hpe, hm, hf]
  by_cases hmod : d.modality = t
  · simp [route, hT, hp, hpe, hm, hf, hmod]
  · simp [route, hT, hp, hpe, hm, hf, hmod]

/-- HTML escaping distributes over string concatenation. -/
theorem escapeHtml_append (a b : String) : escapeHtml (a ++ b) = escapeHtml a ++ escapeHtml b := by
  apply String.ext
  simp [escapeHtml, String.data_append]

/-- Escaping each string and concatenating equals escaping the
concatenation. -/
theorem concatStrings_map_escapeHtml (ds : List String) :
    concatStrings (ds.map escapeHtml) = escapeHtml (concatStrings ds) := by
  induction ds with
  | nil => rfl
  | cons d rest ih => simp [concatStrings, escapeHtml_append, ih]

/-- When a streaming invocation completes without error, it behaves like
the non-streaming invocation on the same provider: the retry condition of
the two calls can only differ on a run that ends in an error. -/
theorem invoke_true_eq_of_success (outs : List ProviderOutcome)
    (h : (invoke true outs).output.error = none) :
    invoke true outs = invoke false outs := by
  unfold invoke at h ⊢
  by_cases h1 : (callOnce (headOutcome outs)).error = some ErrKind.ProviderThrottled
  · by_cases h2 : (callOnce (headOutcome outs)).deltas = []
    · simp [h1, h2]
    · simp [h1, h2] at h
  · simp [h1]

/-- The non-final chunks of an encoded stream carry exactly the escaped
deltas, in order. -/
theorem concatNonFinal_encodeStream (out : StreamOutput) :
    concatNonFinal (encodeStream out) = escapeHtml (concatStrings out.deltas) := by
  unfold concatNonFinal encodeStream
  rw [List.filter_append]
  simp only [List.filter_map, List.map_append, List.map_map]
  have hc1 : ((fun c : StreamChunk => !c.is_final)
      ∘ fun p : Nat × String => (⟨p.1, p.2, false⟩ : StreamChunk)) = fun _ => true := rfl
  have hc2 : (StreamChunk.payload
      ∘ fun p : Nat × String => (⟨p.1, p.2, false⟩ : StreamChunk)) = Prod.snd := rfl
  rw [hc1, hc2]
  simp [List.enum_map_snd, concatStrings_map_escapeHtml]

/-- C1: for every request served with streaming enabled whose stream ends
normally, concatenating the payloads of all non-final chunks yields exactly
the text content embedded by the identical request served with streaming
disabled (the escaped model text of the non-streaming HTML document). -/
theorem streaming_matches_nonstreaming (outs : List ProviderOutcome)
    (h : (invoke true outs).output.error = none) :
    concatNonFinal (encodeStream (invoke true outs).output)
        = escapeHtml (concatStrings (invoke false outs).output.deltas)
    ∧ format (Content.text (concatStrings (invoke false outs).output.deltas))
        = Except.ok (textShellPre
            ++ escapeHtml (concatStrings (invoke false outs).output.deltas)
            ++ textShellPost) := by
  constructor
  · rw [invoke_true_eq_of_success outs h]
    exact concatNonFinal_encodeStream _
  · rfl

/-- Witness for C1 at a concrete two-delta stream. -/
theorem streaming_matches_nonstreaming_witness :
    concatNonFinal (encodeStream (invoke true [ProviderOutcome.ok ["a", "b"]]).output)
        = escapeHtml (concatStrings (invoke false [ProviderOutcome.ok ["a", "b"]]).output.deltas)
    ∧ format (Content.text (concatStrings (invoke false [ProviderOutcome.ok ["a", "b"]]).output.deltas))
        = Except.ok (textShellPre
            ++ escapeHtml (concatStrings (invoke false [ProviderOutcome.ok ["a", "b"]]).output.deltas)
            ++ textShellPost) :=
  streaming_matches_nonstreaming [ProviderOutcome.ok ["a", "b"]] (by decide)

/-- Decoding an ampersand entity. -/
theorem unescapeHtml_amp (r : List Char) :
    unescapeHtml ('&' :: 'a' :: 'm' :: 'p' :: ';' :: r) = '&' :: unescapeHtml r := rfl

/-- Decoding a less-than entity. -/
theorem unescapeHtml_lt (r : List Char) :
    unescapeHtml ('&' :: 'l' :: 't' :: ';' :: r) = '<' :: unescapeHtml r := rfl

/-- Decoding a greater-than entity. -/
theorem unescapeHtml_gt (r : List Char) :
    unescapeHtml ('&' :: 'g' :: 't' :: ';' :: r) = '>' :: unescapeHtml r := rfl

/-- Decoding a double-quote entity. -/
theorem unescapeHtml_quot (r : List Char) :
    unescapeHtml ('&' :: 'q' :: 'u' :: 'o' :: 't' :: ';' :: r) = '"' :: unescapeHtml r := rfl

/-- Decoding an apostrophe entity. -/
theorem unescapeHtml_apos (r : List Char) :
    unescapeHtml ('&' :: '#' :: '3' :: '9' :: ';' :: r) = Char.ofNat 39 :: unescapeHtml r := rfl

set_option maxHeartbeats 2000000 in
/-- Any character other than the ampersand passes through the decoder. -/
theorem unescapeHtml_cons_ne (c : Char) (r : List Char) (h : c ≠ '&') :
    unescapeHtml (c :: r) = c :: unescapeHtml r := by
  rw [unescapeHtml.eq_def]
  split <;> simp_all

/-- Escaping is lossless: decoding the escaped character sequence returns
the original text. -/
theorem unescape_escape (l : List Char) :
    unescapeHtml ((l.map escapeChar).flatten) = l := by
  induction l with
  | nil => rfl
  | cons c rest ih =>
    simp only [List.map_cons, List.flatten_cons]
    by_cases h1 : c = '&'
    · subst h1
      show unescapeHtml ('&' :: 'a' :: 'm' :: 'p' :: ';' :: (rest.map escapeChar).flatten)
          = _
      rw [unescapeHtml_amp, ih]
    by_cases h2 : c = '<'
    · subst h2
      show unescapeHtml ('&' :: 'l' :: 't' :: ';' :: (rest.map escapeChar).flatten) = _
      rw [unescapeHtml_lt, ih]
    by_cases h3 : c = '>'
    · subst h3
      show unescapeHtml ('&' :: 'g' :: 't' :: ';' :: (rest.map escapeChar).flatten) = _
      rw [unescapeHtml_gt, ih]
    by_cases h4 : c = '"'
    · subst h4
      show unescapeHtml ('&' :: 'q' :: 'u' :: 'o' :: 't' :: ';' :: (rest.map escapeChar).flatten)
          = _
      rw [unescapeHtml_quot, ih]
    by_cases h5 : c = Char.ofNat 39
    · subst h5
      show unescapeHtml ('&' :: '#' :: '3' :: '9' :: ';' :: (rest.map escapeChar).flatten) = _
      rw [unescapeHtml_apos, ih]
    have he : escapeChar c = [c] := by
      simp [escapeChar, h1, h2, h3, h4, h5]
    rw [he, List.singleton_append, unescapeHtml_cons_ne c _ h1, ih]

/-- Every character an escaped character expands to is inert: neither a
tag opener nor a tag closer. -/
theorem escapeChar_mem (c x : Char) (hx : x ∈ escapeChar c) : x ≠ '<' ∧ x ≠ '>' := by
  unfold escapeChar at hx
  split at hx
  · exact (by decide : ∀ y ∈ "&amp;".data, y ≠ '<' ∧ y ≠ '>') x hx
  · split at hx
    · exact (by decide : ∀ y ∈ "&lt;".data, y ≠ '<' ∧ y ≠ '>') x hx
    · split at hx
      · exact (by decide : ∀ y ∈ "&gt;".data, y ≠ '<' ∧ y ≠ '>') x hx
      · split at hx
        · exact (by decide : ∀ y ∈ "&quot;".data, y ≠ '<' ∧ y ≠ '>') x hx
        · split at hx
          · exact (by decide : ∀ y ∈ "&#39;".data, y ≠ '<' ∧ y ≠ '>') x hx
          · simp_all

/-- No character of the escaped text can be interpreted as markup. -/
theorem escapeHtml_no_markup (s : String) : ∀ x ∈ (escapeHtml s).data, x ≠ '<' ∧ x ≠ '>' := by
  intro x hx
  have hm : x ∈ (s.data.map escapeChar).flatten := hx
  rw [List.mem_flatten] at hm
  obtain ⟨sub, hsub, hxsub⟩ := hm
  rw [List.mem_map] at hsub
  obtain ⟨c, _, rfl⟩ := hsub
  exact escapeChar_mem c x hxsub

/-- C8: on the text path, ResponseFormatter embeds the model text in the
document shell only after escaping it; the escaping is lossless (the full
model text is recoverable) and the escaped text contains no character that
opens or closes markup, so model output is never evaluated or executed. -/
theorem text_path_escapes (s : String) :
    format (Content.text s) = Except.ok (textShellPre ++ escapeHtml s ++ textShellPost)
    ∧ unescapeHtml (escapeHtml s).data = s.data
    ∧ ∀ x ∈ (escapeHtml s).data, x ≠ '<' ∧ x ≠ '>' :=
  ⟨rfl, unescape_escape s.data, escapeHtml_no_markup s⟩

/-- Every character of the base64 alphabet is neither padding nor a tag
opener. -/
theorem b64Alphabet_safe : ∀ c ∈ b64Alphabet.data, c ≠ '=' ∧ c ≠ '<' := by decide

/-- Every character emitted for a sextet is neither padding nor a tag
opener. -/
theorem valToChar_safe (n : Nat) : valToChar n ≠ '=' ∧ valToChar n ≠ '<' := by
  unfold valToChar
  rcases h : b64Alphabet.data.get? n with _ | c
  · rw [List.getD_eq_get?, h]
    decide
  · rw [List.getD_eq_get?, h]
    exact b64Alphabet_safe c (List.get?_mem h)

/-- No character of the unpadded encoding is padding or a tag opener. -/
theorem encodeCore_safe (bs : List Nat) : ∀ c ∈ encodeCore bs, c ≠ '=' ∧ c ≠ '<' := by
  induction bs using encodeCore.induct with
  | case1 => simp [encodeCore]
  | case2 b0 => simp [encodeCore, valToChar_safe]
  | case3 b0 b1 => simp [encodeCore, valToChar_safe]
  | case4 b0 b1 b2 rest ih => simpa [encodeCore, valToChar_safe] using ih

/-- Dropping the padding of an encoded payload leaves exactly the unpadded
encoding. -/
theorem base64Encode_filter (bs : List Nat) :
    (base64Encode bs).data.filter (fun c => c ≠ '=') = encodeCore bs := by
  show (encodeCore bs ++ List.replicate ((3 - bs.length % 3) % 3) '=').filter _ = _
  rw [List.filter_append]
  have h1 : (encodeCore bs).filter (fun c => c ≠ '=') = encodeCore bs :=
    List.filter_eq_self.mpr (by intro c hc; simpa using (encodeCore_safe bs c hc).1)
  have h2 : (List.replicate ((3 - bs.length % 3) % 3) '=').filter (fun c => c ≠ '=') = [] := by
    simp
  rw [h1, h2, List.append_nil]

/-- No character of an encoded payload opens a tag. -/
theorem base64Encode_no_lt (bs : List Nat) : ∀ c ∈ (base64Encode bs).data, c ≠ '<' := by
  intro c hc
  have hm : c ∈ encodeCore bs ++ List.replicate ((3 - bs.length % 3) % 3) '=' := hc
  rcases List.mem_append.mp hm with h | h
  · exact (encodeCore_safe bs c h).2
  · rw [List.eq_of_mem_replicate h]
    decide

/-- Decoding the unpadded encoding restores exactly as many bytes as were
encoded. -/
theorem decodeSextets_encodeCore_length (bs : List Nat) :
    (decodeSextets ((encodeCore bs).map charToVal)).length = bs.length := by
  induction bs using encodeCore.induct with
  | case1 => rfl
  | case2 b0 => rfl
  | case3 b0 b1 => rfl
  | case4 b0 b1 b2 rest ih =>
    simp only [encodeCore, List.map_cons]
    simp [decodeSextets, ih]

/-- The decoded byte length of an encoded payload equals the original byte
length. -/
theorem base64_roundtrip_length (bs : List Nat) :
    (base64Decode (base64Encode bs)).length = bs.length := by
  unfold base64Decode
  rw [base64Encode_filter]
  exact decodeSextets_encodeCore_length bs

/-- A segment without the tag-opening character contributes no img tag. -/
theorem countImgTags_no_lt (m r : List Char) (hm : ∀ c ∈ m, c ≠ '<') :
    countImgTags (m ++ r) = countImgTags r := by
  induction m with
  | nil => rfl
  | cons c m ih =>
    have hc : c ≠ '<' := hm c (List.mem_cons_self c m)
    have hm2 : ∀ x ∈ m, x ≠ '<' := fun x hx => hm x (List.mem_cons_of_mem c hx)
    simp [countImgTags, hc, ih hm2]

/-- The image document embeds exactly one img element, whatever the
payload bytes are. -/
theorem countImgTags_doc (bs : List Nat) :
    countImgTags (imgShellPre ++ base64Encode bs ++ imgShellPost).data = 1 := by
  have hdata : (imgShellPre ++ base64Encode bs ++ imgShellPost).data
      = imgShellPre.data ++ ((base64Encode bs).data ++ imgShellPost.data) := by
    simp [String.data_append]
  rw [hdata]
  have hpre : imgShellPre.data
      = ['<', 'h', 't', 'm', 'l', '>', '<', 'b', 'o', 'd', 'y', '>', '<', 'i', 'm', 'g',
         ' ', 's', 'r', 'c', '=', '"', 'd', 'a', 't', 'a', ':', 'i', 'm', 'a', 'g', 'e',
         '/', 'p', 'n', 'g', ';', 'b', 'a', 's', 'e', '6', '4', ','] := rfl
  rw [hpre]
  simp only [List.cons_append]
  simp [countImgTags]
  rw [countImgTags_no_lt _ _ (base64Encode_no_lt bs)]
  decide

/-- C9: on the image path, format fails with FormattingError (status 500)
exactly when the byte payload is empty; otherwise it produces the
self-contained document with exactly one embedded data-URI image element
whose decoded byte length equals the byte length returned by the
provider. -/
theorem image_path_formatting (bytes : List Nat) :
    (format (Content.image bytes) = Except.error ErrKind.FormattingError ↔ bytes = [])
    ∧ statusOf ErrKind.FormattingError = 500
    ∧ (bytes ≠ [] →
        format (Content.image bytes)
            = Except.ok (imgShellPre ++ base64Encode bytes ++ imgShellPost)
          ∧ countImgTags (imgShellPre ++ base64Encode bytes ++ imgShellPost).data = 1
          ∧ (base64Decode (base64Encode bytes)).length = bytes.length) := by
  refine ⟨?_, rfl, ?_⟩
  · by_cases h : bytes = [] <;> simp [format, h]
  · intro h
    exact ⟨by simp [format, h], countImgTags_doc bytes, base64_roundtrip_length bytes⟩

/-- Witness for C9 at a concrete three-byte payload. -/
theorem image_path_formatting_witness :
    format (Content.image [137, 80, 78])
        = Except.ok (imgShellPre ++ base64Encode [137, 80, 78] ++ imgShellPost)
    ∧ countImgTags (imgShellPre ++ base64Encode [137, 80, 78] ++ imgShellPost).data = 1
    ∧ (base64Decode (base64Encode [137, 80, 78])).length = [137, 80, 78].length :=
  (image_path_formatting [137, 80, 78]).2.2 (by decide)

/-- Counterexample to C6 as stated: a request whose task is recognized,
whose prompt is non-empty and whose model_id is known to the catalog is
still rejected as InvalidRequest (the modality of the named model differs
from the task), so the three listed conditions are not exhaustive. -/
theorem route_invalid_iff_counterexample :
    route ⟨some "text", some "hi", some "amazon.titan-image-generator-v1", none⟩
        = Except.error ErrKind.InvalidRequest
    ∧ parseTask (some "text") ≠ none
    ∧ (some "hi" : Option String) ≠ none
    ∧ (some "hi" : Option String) ≠ some ""
    ∧ findModel "amazon.titan-image-generator-v1" ≠ none := by
  decide

end AIDispatch

namespace Frontend

/-- JavaScript String.prototype.trim as used by App.tsx: leading and
trailing whitespace removed. -/
def jsTrim (s : String) : String :=
  ⟨((s.data.dropWhile Char.isWhitespace).reverse.dropWhile Char.isWhitespace).reverse⟩

/-- The request body built by handleSubmit in App.tsx (lines 31-36). -/
structure FrontendRequestBody where
  task : String
  prompt : String
  model_id : String
  stream : Bool
deriving DecidableEq

/-- Outcome of one click of the submit button in App.tsx: either blocked
with an error message and no HTTP request, or an HTTP request sent with
the given body. -/
inductive SubmitOutcome where
  | blocked (errorMessage : String)
  | sent (body : FrontendRequestBody)
deriving DecidableEq

/-- The model choices offered by App.tsx (LLM_MODELS, lines 4-9),
as (value, label) pairs. -/
def LLM_MODELS : List (String × String) :=
  [ ("mistral.mistral-7b-instruct-v0:2", "Mistral 7B Instruct"),
    ("meta.llama3-8b-instruct-v1:0", "Llama 3 8B Instruct"),
    ("us.amazon.nova-lite-v1:0", "Amazon Nova Lite"),
    ("amazon.titan-text-lite-v1", "Amazon Titan Text Lite") ]

/-- handleSubmit from App.tsx (lines 18-47): when the trimmed prompt is
empty it sets the error message and returns without any HTTP request;
otherwise it POSTs a body with task "text", the trimmed prompt, the
selected model and stream false. -/
def handleSubmit (prompt : String) (selectedModel : String) : SubmitOutcome :=
  if jsTrim prompt = "" then SubmitOutcome.blocked "Please enter a prompt"
  else SubmitOutcome.sent ⟨"text", jsTrim prompt, selectedModel, false⟩

end Frontend


namespace Frontend

/-- C10: whenever the prompt is empty or consists only of whitespace,
handleSubmit performs no HTTP request and sets the error message
"Please enter a prompt"; every request that is sent carries the trimmed,
non-empty prompt with task "text", the selected model and stream false. -/
theorem handleSubmit_correct (prompt selectedModel : String) :
    (jsTrim prompt = "" →
        handleSubmit prompt selectedModel = SubmitOutcome.blocked "Please enter a prompt")
    ∧ (∀ b : FrontendRequestBody,
        handleSubmit prompt selectedModel = SubmitOutcome.sent b →
          b.task = "text" ∧ b.prompt = jsTrim prompt ∧ b.prompt ≠ ""
            ∧ b.model_id = selectedModel ∧ b.stream = false) := by
  constructor
  · intro h
    simp [handleSubmit, h]
  · intro b hb
    unfold handleSubmit at hb
    split at hb
    · exact absurd hb (by simp)
    · cases hb
      next h =>
        simp_all

/-- Witness for C10 at concrete prompts. -/
theorem handleSubmit_correct_witness :
    handleSubmit "   " "mistral.mistral-7b-instruct-v0:2" = SubmitOutcome.blocked "Please enter a prompt"
    ∧ ((⟨"text", jsTrim " hi ", "m", false⟩ : FrontendRequestBody).task = "text"
        ∧ (⟨"text", jsTrim " hi ", "m", false⟩ : FrontendRequestBody).prompt = jsTrim " hi "
        ∧ (⟨"text", jsTrim " hi ", "m", false⟩ : FrontendRequestBody).prompt ≠ ""
        ∧ (⟨"text", jsTrim " hi ", "m", false⟩ : FrontendRequestBody).model_id = "m"
        ∧ (⟨"text", jsTrim " hi ", "m", false⟩ : FrontendRequestBody).stream = false) :=
  ⟨(handleSubmit_correct "   " "mistral.mistral-7b-instruct-v0:2").1 (by decide),
   (handleSubmit_correct " hi " "m").2 ⟨"text", jsTrim " hi ", "m", false⟩ (by decide)⟩

end Frontend
